import Mathlib

/-!
Verification of the options-hedging decision engine: a shallow embedding of
the repository's unit conversion, lot sizing, data acquisition, signal
analysis, deduplication and position lifecycle logic, with theorems settling
the behavioural claims about each component.

Python floats are embedded as exact rationals (`ℚ`); the numeric literals of
the source become the rationals they denote.  Fallible operations
(`ValueError`, absent data) are embedded as `Option`.  Fields of the source's
dataclasses that only hold rendered text for the notification channel
(`explanation`, `recommended_action`, `risk_assessment`) or values obtained
from network collaborators (`contracts`) are omitted from the embedded
records: no claim is about them, and they carry no decision logic.
-/

namespace OptionsHedging

/-! ## Unit conversion — `lot_calculator.py`, `UNIT_CONVERSIONS` and
`get_conversion_factor` (lines 18–69).  The conversion table is a module
global in the source; the embedded lookup function takes it as an explicit
parameter, and `UNIT_CONVERSIONS` below is the source's table. -/

/-- The module-level conversion table of `lot_calculator.py` lines 18–29:
tonne↔pound, kilogram↔troy-ounce, gram↔troy-ounce, barrel↔barrel. -/
def UNIT_CONVERSIONS : List ((String × String) × ℚ) :=
  [ (("吨", "磅"), 110231 / 50)
  , (("磅", "吨"), 50 / 110231)
  , (("千克", "盎司"), 321507 / 10000)
  , (("盎司", "千克"), 10000 / 321507)
  , (("克", "盎司"), 321507 / 10000000)
  , (("盎司", "克"), 311035 / 10000)
  , (("桶", "桶"), 1) ]

/-- `get_conversion_factor` (lines 46–69): equal units give factor 1; else
the direct pair is looked up, else the inverse pair's reciprocal; `none`
embeds the `ValueError` (`UnsupportedConversion`) raised when neither
direction is registered. -/
def get_conversion_factor (table : List ((String × String) × ℚ))
    (from_unit to_unit : String) : Option ℚ :=
  if from_unit = to_unit then
    some 1
  else
    match table.lookup (from_unit, to_unit) with
    | some factor => some factor
    | none =>
      match table.lookup (to_unit, from_unit) with
      | some factor => some (1 / factor)
      | none => none

/-! ## Lot sizing — `lot_calculator.py`, `calculate_lots` (lines 72–143) and
`calculate_optimal_lots` (lines 146–193). -/

/-- The fields of `InstrumentConfig` (`instruments.py` lines 11–40) that the
decision logic reads.  Purely descriptive string fields (`key`, `name_en`,
exchanges, symbols) that no claim mentions are kept only where a snapshot or
signal copies them. -/
structure InstrumentConfig where
  name : String
  domestic_unit : String
  domestic_lot_size : ℚ
  domestic_base_unit : String
  foreign_exchange : String
  foreign_symbol : String
  foreign_unit : String
  foreign_lot_size : ℚ
  foreign_base_unit : String
  iv_open_threshold : ℚ
  iv_close_threshold : ℚ
  iv_stop_loss : ℚ
  min_iv_diff : ℚ
deriving DecidableEq

/-- `LotCalculation` (`lot_calculator.py` lines 32–43) without the rendered
`explanation` string. -/
structure LotCalculation where
  domestic_lots : ℤ
  foreign_lots : ℤ
  domestic_total_units : ℚ
  foreign_total_units : ℚ
  domestic_base_unit : String
  foreign_base_unit : String
  conversion_ratio : ℚ
  hedge_ratio : ℚ
deriving DecidableEq

/-- `calculate_lots` (lines 72–143): total domestic units are converted to
foreign units, divided by the foreign lot size, rounded up or down per
`round_up`, and a result of exactly 0 lots is replaced by 1.  `none` embeds
the propagated `UnsupportedConversion`. -/
def calculate_lots (config : InstrumentConfig) (domestic_lots : ℤ)
    (round_up : Bool) : Option LotCalculation :=
  let domestic_total_units : ℚ := (domestic_lots : ℚ) * config.domestic_lot_size
  match get_conversion_factor UNIT_CONVERSIONS
      config.domestic_base_unit config.foreign_base_unit with
  | none => none
  | some conversion_factor =>
    let foreign_total_units := domestic_total_units * conversion_factor
    let foreign_lots_exact := foreign_total_units / config.foreign_lot_size
    let rounded : ℤ := if round_up then ⌈foreign_lots_exact⌉ else ⌊foreign_lots_exact⌋
    let foreign_lots : ℤ := if rounded = 0 then 1 else rounded
    let foreign_actual_units := (foreign_lots : ℚ) * config.foreign_lot_size
    let domestic_in_foreign := domestic_total_units * conversion_factor
    let hedge_ratio : ℚ :=
      if 0 < domestic_in_foreign then foreign_actual_units / domestic_in_foreign * 100 else 0
    some { domestic_lots := domestic_lots
         , foreign_lots := foreign_lots
         , domestic_total_units := domestic_total_units
         , foreign_total_units := foreign_actual_units
         , domestic_base_unit := config.domestic_base_unit
         , foreign_base_unit := config.foreign_base_unit
         , conversion_ratio := (foreign_lots : ℚ) / (domestic_lots : ℚ)
         , hedge_ratio := hedge_ratio }

/-- Python's built-in `round`: round to nearest, ties to the even integer. -/
def pythonRound (q : ℚ) : ℤ :=
  let f := ⌊q⌋
  let r := q - (f : ℚ)
  if r < 1 / 2 then f
  else if 1 / 2 < r then f + 1
  else if 2 ∣ f then f else f + 1

/-- One candidate of the search loop of `calculate_optimal_lots` (lines
172–190): for `foreign_lots` candidate lots, the back-solved domestic lot
count (`round`, then 0 is replaced by 1). -/
def optimal_candidate_domestic (config : InstrumentConfig) (cf : ℚ)
    (foreign_lots : ℤ) : ℤ :=
  let foreign_units : ℚ := (foreign_lots : ℚ) * config.foreign_lot_size
  let domestic_units_needed := foreign_units / cf
  let d := pythonRound (domestic_units_needed / config.domestic_lot_size)
  if d = 0 then 1 else d

/-- The realized ratio the search loop computes for one candidate (lines
180–183), `none` embedding the `float('inf')` branch when the domestic total
is not positive. -/
def optimal_candidate_ratio (config : InstrumentConfig) (cf : ℚ)
    (foreign_lots : ℤ) : Option ℚ :=
  let domestic_lots := optimal_candidate_domestic config cf foreign_lots
  let domestic_total := (domestic_lots : ℚ) * config.domestic_lot_size * cf
  let foreign_total := (foreign_lots : ℚ) * config.foreign_lot_size
  if 0 < domestic_total then some (foreign_total / domestic_total) else none

/-- The fold step of the search: `best` is `(best_ratio_diff, best_domestic,
best_foreign)` with `none` standing for the initial `float('inf')`; an
infinite candidate ratio never improves the best (in Python
`inf < inf` and `inf < x` are false). -/
def optimal_step (config : InstrumentConfig) (cf : ℚ)
    (best : Option ℚ × ℤ × ℤ) (foreign_lots : ℤ) : Option ℚ × ℤ × ℤ :=
  match optimal_candidate_ratio config cf foreign_lots with
  | none => best
  | some ratio =>
    let ratio_diff := |ratio - 1|
    let better := match best.1 with
      | none => true
      | some b => decide (ratio_diff < b)
    if better then
      (some ratio_diff, optimal_candidate_domestic config cf foreign_lots, foreign_lots)
    else best

/-- `calculate_optimal_lots` (lines 146–193): brute-force search over foreign
lot candidates `1..max_foreign_lots`, keeping the candidate with the smallest
`|ratio − 1|` (strict improvement, so the first — smallest — candidate wins
ties), then the result is produced by `calculate_lots config best_domestic`
with the default `round_up = true`. -/
def calculate_optimal_lots (config : InstrumentConfig)
    (max_foreign_lots : ℕ) : Option LotCalculation :=
  match get_conversion_factor UNIT_CONVERSIONS
      config.domestic_base_unit config.foreign_base_unit with
  | none => none
  | some cf =>
    let candidates : List ℤ := (List.range max_foreign_lots).map (fun i => (i : ℤ) + 1)
    let best := candidates.foldl (optimal_step config cf) (none, 1, 1)
    calculate_lots config best.2.1 true

/-! ## Market snapshots — `multi_data_fetcher.py`, `MarketSnapshot` and
`InstrumentData` (lines 20–42) and the foreign-side acquisition
`fetch_foreign_data` (lines 744–845). -/

/-- `MarketSnapshot` (`multi_data_fetcher.py` lines 20–32), field for field.
The dataclass annotates `atm_iv: float`, but the fetchers assign `None` to it
when every tier fails, and the analyzer tests `atm_iv is None`, so it is
embedded as `Option ℚ`.  Note the record carries no provenance field of any
kind. -/
structure MarketSnapshot where
  instrument : String
  instrument_name : String
  market : String
  exchange : String
  symbol : String
  price : ℚ
  unit : String
  atm_iv : Option ℚ
  timestamp : ℕ
deriving DecidableEq

/-- `InstrumentData` (lines 34–42). -/
structure InstrumentData where
  instrument : String
  config : InstrumentConfig
  domestic : Option MarketSnapshot
  foreign : Option MarketSnapshot
  iv_diff : Option ℚ
  timestamp : ℕ
deriving DecidableEq

/-- The assembly step of `fetch_instrument` (lines 1129–1141): `iv_diff` is
`foreign.atm_iv - domestic.atm_iv` when both snapshots exist and both carry
an IV, else `None`. -/
def mk_instrument_data (instrument : String) (config : InstrumentConfig)
    (domestic foreign : Option MarketSnapshot) (ts : ℕ) : InstrumentData :=
  let iv_diff : Option ℚ :=
    match domestic, foreign with
    | some d, some f =>
      match d.atm_iv, f.atm_iv with
      | some di, some fi => some (fi - di)
      | _, _ => none
    | _, _ => none
  { instrument := instrument, config := config, domestic := domestic
  , foreign := foreign, iv_diff := iv_diff, timestamp := ts }

/-- What one ticker attempt of the `fetch_foreign_data` loop observes: the
history emptiness check (line 775), the closing price (line 780), the result
of `_get_foreign_iv` (option-chain/scrape tiers, line 789) and the result of
`_calculate_historical_volatility` (line 801).  The two IV sources are the
collaborator contracts of the spec; the loop body itself is embedded
below. -/
structure TickerAttempt where
  hist_empty : Bool
  price : ℚ
  option_iv : Option ℚ
  hist_vol : Option ℚ
deriving DecidableEq

/-- The ticker loop of `fetch_foreign_data` (lines 766–835): skip a ticker on
empty history or non-positive price; take the option-chain IV if present,
else fall back to historical volatility (line 796–805) — the fallback value
is assigned to the same `atm_iv` field; if both are absent try the next
ticker; exhaustion returns `None` (lines 843–845). -/
def fetch_foreign_data (config : InstrumentConfig) (instrument : String)
    (attempts : List TickerAttempt) (ts : ℕ) : Option MarketSnapshot :=
  match attempts with
  | [] => none
  | t :: rest =>
    if t.hist_empty then fetch_foreign_data config instrument rest ts
    else if t.price ≤ 0 then fetch_foreign_data config instrument rest ts
    else
      match (match t.option_iv with | some iv => some iv | none => t.hist_vol) with
      | none => fetch_foreign_data config instrument rest ts
      | some iv =>
        some { instrument := instrument
             , instrument_name := config.name
             , market := "foreign"
             , exchange := config.foreign_exchange
             , symbol := config.foreign_symbol
             , price := t.price
             , unit := config.foreign_unit
             , atm_iv := some iv
             , timestamp := ts }

/-! ## Signal analysis — `multi_analyzer.py`, `MultiArbitrageAnalyzer.analyze`
(lines 114–191), `_get_strength` (lines 210–217) and `_estimate_profit`
(lines 383–409). -/

inductive SignalDirection where
  | buy_domestic_sell_foreign
  | sell_domestic_buy_foreign
  | no_signal
deriving DecidableEq

inductive SignalStrength where
  | strong
  | medium
  | weak
deriving DecidableEq

/-- `MultiArbitrageSignal` (lines 30–48) without the collaborator-derived
`contracts` dict and the rendered `recommended_action`/`risk_assessment`
strings (network and formatting, no decision logic). -/
structure MultiArbitrageSignal where
  instrument : String
  instrument_name : String
  direction : SignalDirection
  strength : SignalStrength
  iv_diff : ℚ
  domestic_iv : ℚ
  foreign_iv : ℚ
  domestic_price : ℚ
  foreign_price : ℚ
  domestic_unit : String
  foreign_unit : String
  expected_profit : ℚ
deriving DecidableEq

/-- The per-instrument vega table of `_estimate_profit` (lines 392–397). -/
def vega_factors : List (String × ℚ) :=
  [("copper", 800), ("gold", 500), ("silver", 600), ("crude_oil", 700)]

/-- `_estimate_profit` (lines 383–409): `0.8 × iv_diff × vega`, vega looked
up by instrument with default 500. -/
def estimate_profit (iv_diff : ℚ) (instrument : String) : ℚ :=
  let vega := (vega_factors.lookup instrument).getD 500
  iv_diff * vega * (8 / 10)

/-- `_get_strength` (lines 210–217), applied by `analyze` to `|iv_diff|`. -/
def get_strength (iv_diff : ℚ) (config : InstrumentConfig) : SignalStrength :=
  if config.iv_open_threshold * (3 / 2) ≤ iv_diff then .strong
  else if config.iv_open_threshold ≤ iv_diff then .medium
  else .weak

/-- `MultiArbitrageAnalyzer.analyze` (lines 114–191): reject when a side or a
side's IV is absent, then gate on `min_iv_diff` and `iv_open_threshold`,
then direction by the sign of `iv_diff` and strength by `_get_strength`.
The `iv_diff = none` arm is unreachable for data assembled by
`fetch_instrument` (`mk_instrument_data`): the Python reads the field
unguarded after the IV checks. -/
def analyze (d : InstrumentData) : Option MultiArbitrageSignal :=
  match d.domestic, d.foreign with
  | some dom, some frn =>
    match dom.atm_iv, frn.atm_iv with
    | some domestic_iv, some foreign_iv =>
      match d.iv_diff with
      | none => none
      | some iv_diff =>
        if |iv_diff| < d.config.min_iv_diff then none
        else if |iv_diff| < d.config.iv_open_threshold then none
        else
          let direction : SignalDirection :=
            if 0 < iv_diff then .buy_domestic_sell_foreign
            else .sell_domestic_buy_foreign
          some { instrument := d.instrument
               , instrument_name := d.config.name
               , direction := direction
               , strength := get_strength |iv_diff| d.config
               , iv_diff := iv_diff
               , domestic_iv := domestic_iv
               , foreign_iv := foreign_iv
               , domestic_price := dom.price
               , foreign_price := frn.price
               , domestic_unit := d.config.domestic_unit
               , foreign_unit := d.config.foreign_unit
               , expected_profit := estimate_profit |iv_diff| d.instrument }
    | _, _ => none
  | _, _ => none

/-! ## Deduplication — `arbitrage_analyzer.py`,
`ArbitrageAnalyzer._is_duplicate_signal` (lines 323–338), and
`multi_monitor.py`, `MultiInstrumentMonitor._should_send_signal`
(lines 123–131).  Timestamps are embedded as seconds (`ℤ`); the Python
subtractions `(a - b).total_seconds()` become integer subtraction. -/

inductive ShfeDirection where
  | buy_shfe_sell_cme
  | sell_shfe_buy_cme
deriving DecidableEq

/-- The fields of a recorded `ArbitrageSignal` that `_is_duplicate_signal`
reads: direction, `iv_diff` and the timestamp. -/
structure SignalRecord where
  direction : ShfeDirection
  iv_diff : ℚ
  timestamp : ℤ
deriving DecidableEq

/-- `_is_duplicate_signal` (lines 323–338): no last-signal time means not a
duplicate; within 1800 seconds of it, the *last* signal of the history is
compared — same direction and `|iv_diff|` difference under 2 percentage
points means duplicate. -/
def is_duplicate_signal (last_signal_time : Option ℤ)
    (signal_history : List SignalRecord) (signal : SignalRecord) : Bool :=
  match last_signal_time with
  | none => false
  | some t =>
    if signal.timestamp - t < 1800 then
      match signal_history.getLast? with
      | some last =>
        decide (last.direction = signal.direction) &&
          decide (|last.iv_diff - signal.iv_diff| < 2)
      | none => false
    else false

/-- `_should_send_signal` (`multi_monitor.py` lines 123–131): the
per-instrument send gate of the multi-instrument monitor.  `last_time` is
`self.last_signal_time.get(instrument)`, `now` the current time; the gate
passes only when no signal was sent yet or more than 1800 seconds have
elapsed — direction and `iv_diff` are not consulted. -/
def should_send_signal (last_time : Option ℤ) (now : ℤ) : Bool :=
  match last_time with
  | none => true
  | some t => decide (1800 < now - t)

/-! ## Position lifecycle — `position_tracker.py`, `PositionTracker`
(lines 127–141) and `check_close_signals` (lines 230–332). -/

/-- The threshold configuration read in `PositionTracker.__init__`
(lines 135–138). -/
structure TrackerConfig where
  close_iv_threshold : ℚ
  stop_loss_iv_threshold : ℚ
  days_before_expiry : ℤ
  max_holding_days : ℤ
deriving DecidableEq

/-- The `config.get(..., default)` values of lines 135–138. -/
def defaultTrackerConfig : TrackerConfig :=
  { close_iv_threshold := 5, stop_loss_iv_threshold := 18
  , days_before_expiry := 7, max_holding_days := 21 }

/-- The fields of `Position` (lines 18–48) that `check_close_signals`
reads. -/
structure Position where
  id : String
  direction : ShfeDirection
  open_iv_diff : ℚ
deriving DecidableEq

inductive CloseReason where
  | profit_converge
  | profit_widen
  | stop_loss
  | expiry_guard
  | max_holding
deriving DecidableEq

inductive Urgency where
  | low
  | medium
  | high
deriving DecidableEq

/-- `CloseSignal` (lines 51–63) restricted to the decision-relevant fields
(the rendered message and echoed current IVs carry no logic). -/
structure CloseSignal where
  reason : CloseReason
  urgency : Urgency
  iv_diff_change : ℚ
  days_to_expiry : ℤ
  estimated_pnl : ℚ
deriving DecidableEq

/-- The per-position body of `check_close_signals` (lines 249–323).
`parsed_days_to_expiry` is the `(strptime(expiry_date) - now).days` result,
`none` embedding the `except` that substitutes 30 (lines 258–262);
`parsed_holding_days` likewise for `open_time` with substitute 0
(lines 265–269).  The four triggers are evaluated in source order, each
later one overwriting `reason`/`urgency`, max-holding only when no reason
is set yet; a signal is produced iff a reason is set. -/
def check_close_position (cfg : TrackerConfig) (position : Position)
    (current_iv_diff : ℚ) (parsed_days_to_expiry : Option ℤ)
    (parsed_holding_days : Option ℤ) : Option CloseSignal :=
  let iv_diff_change := current_iv_diff - position.open_iv_diff
  let days_to_expiry := parsed_days_to_expiry.getD 30
  let holding_days := parsed_holding_days.getD 0
  let estimated_pnl : ℚ :=
    match position.direction with
    | .buy_shfe_sell_cme => -iv_diff_change * 800
    | .sell_shfe_buy_cme => iv_diff_change * 800
  -- 1. profit target
  let r1 : Option CloseReason × Urgency :=
    match position.direction with
    | .buy_shfe_sell_cme =>
      if |current_iv_diff| < cfg.close_iv_threshold
      then (some .profit_converge, .medium) else (none, .low)
    | .sell_shfe_buy_cme =>
      if |position.open_iv_diff| * (3 / 2) < |current_iv_diff|
      then (some .profit_widen, .medium) else (none, .low)
  -- 2. stop loss
  let r2 : Option CloseReason × Urgency :=
    match position.direction with
    | .buy_shfe_sell_cme =>
      if cfg.stop_loss_iv_threshold < current_iv_diff
      then (some .stop_loss, .high) else r1
    | .sell_shfe_buy_cme => r1
  -- 3. expiry guard
  let r3 : Option CloseReason × Urgency :=
    if days_to_expiry ≤ cfg.days_before_expiry
    then (some .expiry_guard, .high) else r2
  -- 4. max holding, only when nothing fired yet
  let r4 : Option CloseReason × Urgency :=
    if cfg.max_holding_days ≤ holding_days ∧ r3.1 = none
    then (some .max_holding, .low) else r3
  match r4.1 with
  | none => none
  | some reason =>
    some { reason := reason, urgency := r4.2, iv_diff_change := iv_diff_change
         , days_to_expiry := days_to_expiry, estimated_pnl := estimated_pnl }

/-! ## Concrete inputs used by witnesses and counterexamples -/

/-- The real SHFE/CME copper contract pair: 5 tonnes per domestic lot,
25000 pounds per foreign lot, with the copper thresholds of `config.py`
(open 8, close 5, stop 18, noise floor 3). -/
def copperSpec : InstrumentConfig :=
  { name := "铜", domestic_unit := "元/吨", domestic_lot_size := 5
  , domestic_base_unit := "吨", foreign_exchange := "CME", foreign_symbol := "HG"
  , foreign_unit := "美元/磅", foreign_lot_size := 25000, foreign_base_unit := "磅"
  , iv_open_threshold := 8, iv_close_threshold := 5, iv_stop_loss := 18
  , min_iv_diff := 3 }

/-- `calculate_lots copperSpec 1 true`: 5 tonnes ≈ 11023.1 lb, 0.44 foreign
lots exactly, so 1 lot after the ceiling, at a 226.8% hedge ratio. -/
def calcCopper1 : LotCalculation :=
  { domestic_lots := 1, foreign_lots := 1, domestic_total_units := 5
  , foreign_total_units := 25000, domestic_base_unit := "吨"
  , foreign_base_unit := "磅", conversion_ratio := 1
  , hedge_ratio := 25000000 / 110231 }

/-- The result `calculate_optimal_lots` actually returns for the copper pair
with `max_foreign_lots = 10`: `calculate_lots copperSpec 16 true`, whose
ceiling re-derivation yields 8 foreign lots at a ≈113.4% hedge ratio. -/
def calcCopper16 : LotCalculation :=
  { domestic_lots := 16, foreign_lots := 8, domestic_total_units := 80
  , foreign_total_units := 200000, domestic_base_unit := "吨"
  , foreign_base_unit := "磅", conversion_ratio := 1 / 2
  , hedge_ratio := 12500000 / 110231 }

/-- A domestic copper snapshot with IV 20, used by the analyzer witnesses. -/
def snapDom20 : MarketSnapshot :=
  { instrument := "copper", instrument_name := "铜", market := "domestic"
  , exchange := "SHFE", symbol := "CU", price := 70000, unit := "元/吨"
  , atm_iv := some 20, timestamp := 0 }

/-- A foreign copper snapshot whose IV is unavailable (every tier failed). -/
def snapForNoIV : MarketSnapshot :=
  { instrument := "copper", instrument_name := "铜", market := "foreign"
  , exchange := "CME", symbol := "HG", price := 4, unit := "美元/磅"
  , atm_iv := none, timestamp := 0 }

/-- A foreign copper snapshot with IV 27.99 (spread 7.99 against
`snapDom20`, just under the open threshold 8). -/
def snapFor2799 : MarketSnapshot :=
  { instrument := "copper", instrument_name := "铜", market := "foreign"
  , exchange := "CME", symbol := "HG", price := 4, unit := "美元/磅"
  , atm_iv := some (2799 / 100), timestamp := 0 }

/-- A foreign copper snapshot with IV 32 (spread 12 against `snapDom20`,
at 1.5× the open threshold). -/
def snapFor32 : MarketSnapshot :=
  { instrument := "copper", instrument_name := "铜", market := "foreign"
  , exchange := "CME", symbol := "HG", price := 4, unit := "美元/磅"
  , atm_iv := some 32, timestamp := 0 }

/-- The signal emitted for a 20 vs 32 copper pair: spread +12 = 1.5× the
open threshold, so direction long-domestic/short-foreign and strength
strong. -/
def s7 : MultiArbitrageSignal :=
  { instrument := "copper", instrument_name := "铜"
  , direction := .buy_domestic_sell_foreign, strength := .strong
  , iv_diff := 12, domestic_iv := 20, foreign_iv := 32
  , domestic_price := 70000, foreign_price := 4
  , domestic_unit := "元/吨", foreign_unit := "美元/磅"
  , expected_profit := 7680 }

/-- The position used by the C10 witness: a long-domestic position opened at
spread 10 whose date strings failed to parse. -/
def pos10 : Position :=
  { id := "POS_TEST2", direction := .buy_shfe_sell_cme, open_iv_diff := 10 }

/-- The close signal C10's witness observes at current spread 20: the stop
loss (18 < 20), not the expiry guard or the max-holding trigger. -/
def sig10 : CloseSignal :=
  { reason := .stop_loss, urgency := .high, iv_diff_change := 10
  , days_to_expiry := 30, estimated_pnl := -8000 }

/-! ## Theorems -/

/-- Every factor of the source's conversion table is positive. -/
theorem UNIT_CONVERSIONS_pos : ∀ p ∈ UNIT_CONVERSIONS, 0 < p.2 := by
  intro p hp
  fin_cases hp <;> norm_num

/-- A successful lookup in a table of positive factors yields a positive
factor. -/
theorem lookup_pos_of_pos {table : List ((String × String) × ℚ)}
    (hpos : ∀ p ∈ table, 0 < p.2) (k : String × String) {f : ℚ}
    (h : table.lookup k = some f) : 0 < f := by
  induction table with
  | nil => simp [List.lookup] at h
  | cons a tl ih =>
    rw [List.lookup] at h
    split at h
    · cases h
      exact hpos a (List.mem_cons_self a tl)
    · exact ih (fun p hp => hpos p (List.mem_cons_of_mem a hp)) h

/-- A conversion factor obtained from the source's table is positive. -/
theorem conversion_factor_pos {u v : String} {f : ℚ}
    (h : get_conversion_factor UNIT_CONVERSIONS u v = some f) : 0 < f := by
  unfold get_conversion_factor at h
  split at h
  · cases h; norm_num
  · split at h
    · cases h
      exact lookup_pos_of_pos UNIT_CONVERSIONS_pos _ (by assumption)
    · split at h
      · cases h
        have := lookup_pos_of_pos UNIT_CONVERSIONS_pos _ (by assumption)
        positivity
      · cases h

/-- C9: `get_conversion_factor` returns factor 1 for equal units (so the
converted quantity is unchanged); when the direct pair is absent and the
inverse pair registered it returns the reciprocal of the inverse factor; and
it fails (raises `UnsupportedConversion`, embedded `none`) exactly when the
units differ and neither direction is in the table. -/
theorem c9_conversion_cases (table : List ((String × String) × ℚ))
    (u v : String) :
    (u = v → get_conversion_factor table u v = some 1) ∧
    (table.lookup (u, v) = none →
      ∀ f, table.lookup (v, u) = some f →
        get_conversion_factor table u v = some (1 / f)) ∧
    (get_conversion_factor table u v = none ↔
      u ≠ v ∧ table.lookup (u, v) = none ∧ table.lookup (v, u) = none) := by
  unfold get_conversion_factor
  by_cases huv : u = v
  · subst huv
    refine ⟨fun _ => by simp, fun hd f hi => ?_, by simp⟩
    rw [hd] at hi
    cases hi
  · refine ⟨fun h => absurd h huv, fun hd f hi => ?_, ?_⟩
    · rw [if_neg huv, hd, hi]
    · rw [if_neg huv]
      constructor
      · intro h
        refine ⟨huv, ?_, ?_⟩
        · cases hd : table.lookup (u, v) with
          | none => rfl
          | some g => rw [hd] at h; cases h
        · cases hd : table.lookup (u, v) with
          | none =>
            rw [hd] at h
            cases hi : table.lookup (v, u) with
            | none => rfl
            | some g => rw [hi] at h; cases h
          | some g => rw [hd] at h; cases h
      · rintro ⟨-, hd, hi⟩
        rw [hd, hi]

/-- C9 witness: the three cases at concrete inputs — tonne→tonne gives 1; a
table holding only tonne→pound serves pound→tonne as the reciprocal; and
tonne→troy-ounce is registered in neither direction, so conversion fails. -/
theorem c9_conversion_cases_witness :
    get_conversion_factor UNIT_CONVERSIONS "吨" "吨" = some 1 ∧
    get_conversion_factor [(("吨", "磅"), 110231 / 50)] "磅" "吨" =
      some (1 / (110231 / 50)) ∧
    get_conversion_factor UNIT_CONVERSIONS "吨" "盎司" = none :=
  ⟨(c9_conversion_cases UNIT_CONVERSIONS "吨" "吨").1 rfl,
   (c9_conversion_cases [(("吨", "磅"), 110231 / 50)] "磅" "吨").2.1
     rfl _ rfl,
   (c9_conversion_cases UNIT_CONVERSIONS "吨" "盎司").2.2.mpr
     ⟨by decide, rfl, rfl⟩⟩

theorem copper_cand_dom_1 :
    optimal_candidate_domestic copperSpec (110231 / 50) 1 = 2 := by
  norm_num [optimal_candidate_domestic, pythonRound, copperSpec]

theorem copper_cand_ratio_1 :
    optimal_candidate_ratio copperSpec (110231 / 50) 1 = some (125000/110231) := by
  simp only [optimal_candidate_ratio]
  rw [copper_cand_dom_1]
  norm_num [copperSpec]

theorem copper_step_1 :
    optimal_step copperSpec (110231 / 50) (none, 1, 1) 1 = (some (14769/110231), 2, 1) := by
  unfold optimal_step
  rw [copper_cand_ratio_1]
  simp only []
  rw [copper_cand_dom_1]
  norm_num [abs_of_pos]

theorem copper_cand_dom_2 :
    optimal_candidate_domestic copperSpec (110231 / 50) 2 = 5 := by
  norm_num [optimal_candidate_domestic, pythonRound, copperSpec]

theorem copper_cand_ratio_2 :
    optimal_candidate_ratio copperSpec (110231 / 50) 2 = some (100000/110231) := by
  simp only [optimal_candidate_ratio]
  rw [copper_cand_dom_2]
  norm_num [copperSpec]

theorem copper_step_2 :
    optimal_step copperSpec (110231 / 50) (some (14769/110231), 2, 1) 2 = (some (10231/110231), 5, 2) := by
  unfold optimal_step
  rw [copper_cand_ratio_2]
  simp only []
  rw [copper_cand_dom_2]
  norm_num [abs_of_pos]

theorem copper_cand_dom_3 :
    optimal_candidate_domestic copperSpec (110231 / 50) 3 = 7 := by
  norm_num [optimal_candidate_domestic, pythonRound, copperSpec]

theorem copper_cand_ratio_3 :
    optimal_candidate_ratio copperSpec (110231 / 50) 3 = some (750000/771617) := by
  simp only [optimal_candidate_ratio]
  rw [copper_cand_dom_3]
  norm_num [copperSpec]

theorem copper_step_3 :
    optimal_step copperSpec (110231 / 50) (some (10231/110231), 5, 2) 3 = (some (21617/771617), 7, 3) := by
  unfold optimal_step
  rw [copper_cand_ratio_3]
  simp only []
  rw [copper_cand_dom_3]
  norm_num [abs_of_pos]

theorem copper_cand_dom_4 :
    optimal_candidate_domestic copperSpec (110231 / 50) 4 = 9 := by
  norm_num [optimal_candidate_domestic, pythonRound, copperSpec]

theorem copper_cand_ratio_4 :
    optimal_candidate_ratio copperSpec (110231 / 50) 4 = some (1000000/992079) := by
  simp only [optimal_candidate_ratio]
  rw [copper_cand_dom_4]
  norm_num [copperSpec]

theorem copper_step_4 :
    optimal_step copperSpec (110231 / 50) (some (21617/771617), 7, 3) 4 = (some (7921/992079), 9, 4) := by
  unfold optimal_step
  rw [copper_cand_ratio_4]
  simp only []
  rw [copper_cand_dom_4]
  norm_num [abs_of_pos]

theorem copper_cand_dom_5 :
    optimal_candidate_domestic copperSpec (110231 / 50) 5 = 11 := by
  norm_num [optimal_candidate_domestic, pythonRound, copperSpec]

theorem copper_cand_ratio_5 :
    optimal_candidate_ratio copperSpec (110231 / 50) 5 = some (1250000/1212541) := by
  simp only [optimal_candidate_ratio]
  rw [copper_cand_dom_5]
  norm_num [copperSpec]

theorem copper_step_5 :
    optimal_step copperSpec (110231 / 50) (some (7921/992079), 9, 4) 5 = (some (7921/992079), 9, 4) := by
  unfold optimal_step
  rw [copper_cand_ratio_5]
  simp only []
  rw [copper_cand_dom_5]
  norm_num [abs_of_pos]

theorem copper_cand_dom_6 :
    optimal_candidate_domestic copperSpec (110231 / 50) 6 = 14 := by
  norm_num [optimal_candidate_domestic, pythonRound, copperSpec]

theorem copper_cand_ratio_6 :
    optimal_candidate_ratio copperSpec (110231 / 50) 6 = some (750000/771617) := by
  simp only [optimal_candidate_ratio]
  rw [copper_cand_dom_6]
  norm_num [copperSpec]

theorem copper_step_6 :
    optimal_step copperSpec (110231 / 50) (some (7921/992079), 9, 4) 6 = (some (7921/992079), 9, 4) := by
  unfold optimal_step
  rw [copper_cand_ratio_6]
  simp only []
  rw [copper_cand_dom_6]
  norm_num [abs_of_pos]

theorem copper_cand_dom_7 :
    optimal_candidate_domestic copperSpec (110231 / 50) 7 = 16 := by
  norm_num [optimal_candidate_domestic, pythonRound, copperSpec]

theorem copper_cand_ratio_7 :
    optimal_candidate_ratio copperSpec (110231 / 50) 7 = some (109375/110231) := by
  simp only [optimal_candidate_ratio]
  rw [copper_cand_dom_7]
  norm_num [copperSpec]

theorem copper_step_7 :
    optimal_step copperSpec (110231 / 50) (some (7921/992079), 9, 4) 7 = (some (856/110231), 16, 7) := by
  unfold optimal_step
  rw [copper_cand_ratio_7]
  simp only []
  rw [copper_cand_dom_7]
  norm_num [abs_of_pos]

theorem copper_cand_dom_8 :
    optimal_candidate_domestic copperSpec (110231 / 50) 8 = 18 := by
  norm_num [optimal_candidate_domestic, pythonRound, copperSpec]

theorem copper_cand_ratio_8 :
    optimal_candidate_ratio copperSpec (110231 / 50) 8 = some (1000000/992079) := by
  simp only [optimal_candidate_ratio]
  rw [copper_cand_dom_8]
  norm_num [copperSpec]

theorem copper_step_8 :
    optimal_step copperSpec (110231 / 50) (some (856/110231), 16, 7) 8 = (some (856/110231), 16, 7) := by
  unfold optimal_step
  rw [copper_cand_ratio_8]
  simp only []
  rw [copper_cand_dom_8]
  norm_num [abs_of_pos]

theorem copper_cand_dom_9 :
    optimal_candidate_domestic copperSpec (110231 / 50) 9 = 20 := by
  norm_num [optimal_candidate_domestic, pythonRound, copperSpec]

theorem copper_cand_ratio_9 :
    optimal_candidate_ratio copperSpec (110231 / 50) 9 = some (112500/110231) := by
  simp only [optimal_candidate_ratio]
  rw [copper_cand_dom_9]
  norm_num [copperSpec]

theorem copper_step_9 :
    optimal_step copperSpec (110231 / 50) (some (856/110231), 16, 7) 9 = (some (856/110231), 16, 7) := by
  unfold optimal_step
  rw [copper_cand_ratio_9]
  simp only []
  rw [copper_cand_dom_9]
  norm_num [abs_of_pos]

theorem copper_cand_dom_10 :
    optimal_candidate_domestic copperSpec (110231 / 50) 10 = 23 := by
  norm_num [optimal_candidate_domestic, pythonRound, copperSpec]

theorem copper_cand_ratio_10 :
    optimal_candidate_ratio copperSpec (110231 / 50) 10 = some (2500000/2535313) := by
  simp only [optimal_candidate_ratio]
  rw [copper_cand_dom_10]
  norm_num [copperSpec]

theorem copper_step_10 :
    optimal_step copperSpec (110231 / 50) (some (856/110231), 16, 7) 10 = (some (856/110231), 16, 7) := by
  unfold optimal_step
  rw [copper_cand_ratio_10]
  simp only []
  rw [copper_cand_dom_10]
  norm_num [abs_of_pos]

theorem copper_fold :
    List.foldl (optimal_step copperSpec (110231 / 50)) (none, 1, 1)
      [1, 2, 3, 4, 5, 6, 7, 8, 9, 10] = (some (856/110231), 16, 7) := by
  rw [List.foldl_cons, copper_step_1, List.foldl_cons, copper_step_2,
      List.foldl_cons, copper_step_3, List.foldl_cons, copper_step_4,
      List.foldl_cons, copper_step_5, List.foldl_cons, copper_step_6,
      List.foldl_cons, copper_step_7, List.foldl_cons, copper_step_8,
      List.foldl_cons, copper_step_9, List.foldl_cons, copper_step_10,
      List.foldl_nil]

theorem calc_optimal_copper :
    calculate_optimal_lots copperSpec 10 = calculate_lots copperSpec 16 true := by
  unfold calculate_optimal_lots
  rw [show get_conversion_factor UNIT_CONVERSIONS copperSpec.domestic_base_unit
        copperSpec.foreign_base_unit = some (110231 / 50) from rfl]
  simp only []
  rw [show (List.range 10).map (fun i => ((i : ℤ) + 1)) = [1,2,3,4,5,6,7,8,9,10] from rfl]
  rw [copper_fold]


theorem calc_lots_copper16 : calculate_lots copperSpec 16 true = some calcCopper16 := by
  unfold calculate_lots
  rw [show get_conversion_factor UNIT_CONVERSIONS copperSpec.domestic_base_unit
        copperSpec.foreign_base_unit = some (110231 / 50) from rfl]
  simp only []
  rw [show ⌈((16 : ℤ) : ℚ) * copperSpec.domestic_lot_size * (110231 / 50) /
        copperSpec.foreign_lot_size⌉ = 8 from by
      rw [Int.ceil_eq_iff]; norm_num [copperSpec]]
  norm_num [copperSpec, calcCopper16]

/-- C3: the claim fails on the code.  The brute-force search of
`calculate_optimal_lots` does identify the best candidate — for the copper
contract pair with `max_foreign_lots = 10` it is 16 domestic / 7 foreign
lots, whose realized ratio deviates from 100% by under 1 percentage point —
but the function then rebuilds its result as `calculate_lots(config,
best_domestic)`, which re-derives the foreign lot count by *ceiling* and
discards `best_foreign`: the returned combination is 16 domestic / 8 foreign
lots with a hedge ratio of ≈113.4%, a deviation of more than 13 percentage
points, far from the smallest achievable among the candidates. -/
theorem c3_optimal_lots_deviation_not_minimal :
    calculate_optimal_lots copperSpec 10 = some calcCopper16 ∧
    calcCopper16.domestic_lots = 16 ∧ calcCopper16.foreign_lots = 8 ∧
    13 < |calcCopper16.hedge_ratio - 100| ∧
    optimal_candidate_ratio copperSpec (110231 / 50) 7 = some (109375 / 110231) ∧
    |(109375 / 110231 : ℚ) * 100 - 100| < 1 :=
  ⟨calc_optimal_copper.trans calc_lots_copper16, rfl, rfl,
   by norm_num [calcCopper16, abs_of_pos],
   copper_cand_ratio_7,
   by rw [abs_of_nonpos (by norm_num)]; norm_num⟩

/-- Helper for the C8 witness: `calculate_lots` on the copper pair with one
domestic lot. -/
theorem calc_lots_copper1 : calculate_lots copperSpec 1 true = some calcCopper1 := by
  unfold calculate_lots
  rw [show get_conversion_factor UNIT_CONVERSIONS copperSpec.domestic_base_unit
        copperSpec.foreign_base_unit = some (110231 / 50) from rfl]
  simp only []
  rw [show ⌈((1 : ℤ) : ℚ) * copperSpec.domestic_lot_size * (110231 / 50) /
        copperSpec.foreign_lot_size⌉ = 1 from by
      rw [Int.ceil_eq_iff]; norm_num [copperSpec]]
  norm_num [copperSpec, calcCopper1]

/-- C8: for any contract spec with positive lot sizes and at least one
domestic lot, `calculate_lots` returns the exact foreign requirement rounded
up (ceiling) or down per the flag and clamped to a minimum of 1 lot — in
particular the foreign lot count is never 0. -/
theorem c8_foreign_lots_never_zero (config : InstrumentConfig)
    (domestic_lots : ℤ) (round_up : Bool) (cf : ℚ)
    (hcf : get_conversion_factor UNIT_CONVERSIONS config.domestic_base_unit
      config.foreign_base_unit = some cf)
    (hdl : 1 ≤ domestic_lots) (hds : 0 < config.domestic_lot_size)
    (hfs : 0 < config.foreign_lot_size) (result : LotCalculation)
    (hc : calculate_lots config domestic_lots round_up = some result) :
    result.foreign_lots =
      max 1 (if round_up
        then ⌈(domestic_lots : ℚ) * config.domestic_lot_size * cf /
          config.foreign_lot_size⌉
        else ⌊(domestic_lots : ℚ) * config.domestic_lot_size * cf /
          config.foreign_lot_size⌋) ∧
    1 ≤ result.foreign_lots := by
  have hcf0 : 0 < cf := conversion_factor_pos hcf
  have hdl0 : (0 : ℚ) < (domestic_lots : ℚ) := by exact_mod_cast hdl
  have hex : 0 < (domestic_lots : ℚ) * config.domestic_lot_size * cf /
      config.foreign_lot_size := by positivity
  unfold calculate_lots at hc
  rw [hcf] at hc
  simp only [Option.some.injEq] at hc
  subst hc
  have hceil : 0 < ⌈(domestic_lots : ℚ) * config.domestic_lot_size * cf /
      config.foreign_lot_size⌉ := Int.ceil_pos.mpr hex
  have hfloor : 0 ≤ ⌊(domestic_lots : ℚ) * config.domestic_lot_size * cf /
      config.foreign_lot_size⌋ := Int.floor_nonneg.mpr hex.le
  constructor <;> simp only [] <;> split_ifs <;> omega

/-- C8 witness: the copper pair at one domestic lot with the ceiling flag —
the exact requirement is ≈0.44 foreign lots, the clamp returns 1. -/
theorem c8_foreign_lots_never_zero_witness :
    calcCopper1.foreign_lots =
      max 1 (if true
        then ⌈((1 : ℤ) : ℚ) * copperSpec.domestic_lot_size * (110231 / 50) /
          copperSpec.foreign_lot_size⌉
        else ⌊((1 : ℤ) : ℚ) * copperSpec.domestic_lot_size * (110231 / 50) /
          copperSpec.foreign_lot_size⌋) ∧
    1 ≤ calcCopper1.foreign_lots :=
  c8_foreign_lots_never_zero copperSpec 1 true (110231 / 50) rfl (by norm_num)
    (by norm_num [copperSpec]) (by norm_num [copperSpec]) calcCopper1
    calc_lots_copper1

/-- C4: whenever days-to-expiry (after the parse default) is at or below the
configured buffer, the evaluation emits a close signal whose reason is the
expiry guard at urgency high — the expiry guard overwrites any profit-target
or stop-loss reason set earlier in the same cycle, and the max-holding
trigger cannot replace it. -/
theorem c4_expiry_guard_overrides (cfg : TrackerConfig) (position : Position)
    (current_iv_diff : ℚ) (parsed_days_to_expiry parsed_holding_days : Option ℤ)
    (h : parsed_days_to_expiry.getD 30 ≤ cfg.days_before_expiry) :
    check_close_position cfg position current_iv_diff parsed_days_to_expiry
        parsed_holding_days =
      some { reason := .expiry_guard
           , urgency := .high
           , iv_diff_change := current_iv_diff - position.open_iv_diff
           , days_to_expiry := parsed_days_to_expiry.getD 30
           , estimated_pnl :=
               match position.direction with
               | .buy_shfe_sell_cme => -(current_iv_diff - position.open_iv_diff) * 800
               | .sell_shfe_buy_cme => (current_iv_diff - position.open_iv_diff) * 800 } := by
  unfold check_close_position
  simp only [if_pos h]
  rw [if_neg (by simp)]
/-- C4 witness: buffer 7, expiry in 5 days, for a long-domestic position
whose spread has converged (`|2| < 5` would fire the profit target): the
emitted signal is the expiry guard at urgency high. -/
theorem c4_expiry_guard_overrides_witness :
    check_close_position defaultTrackerConfig
        { id := "POS_TEST", direction := .buy_shfe_sell_cme, open_iv_diff := 10 }
        2 (some 5) (some 0) =
      some { reason := .expiry_guard, urgency := .high, iv_diff_change := -8
           , days_to_expiry := 5, estimated_pnl := 6400 } := by
  rw [c4_expiry_guard_overrides _ _ _ _ _ (by norm_num [defaultTrackerConfig])]
  norm_num

/-- C10: an unparseable `expiry_date` is evaluated exactly as 30
days-to-expiry and an unparseable `open_time` exactly as 0 holding days; with
the default thresholds (buffer 7, cap 21) neither the expiry guard nor the
max-holding trigger can fire for such a position, and evaluation proceeds to
the economic triggers instead of erroring. -/
theorem c10_parse_failure_defaults (position : Position)
    (current_iv_diff : ℚ) :
    check_close_position defaultTrackerConfig position current_iv_diff
        none none =
      check_close_position defaultTrackerConfig position current_iv_diff
        (some 30) (some 0) ∧
    ∀ s, check_close_position defaultTrackerConfig position current_iv_diff
        none none = some s →
      s.reason ≠ .expiry_guard ∧ s.reason ≠ .max_holding ∧
      s.days_to_expiry = 30 := by
  refine ⟨rfl, ?_⟩
  intro s hs
  unfold check_close_position at hs
  norm_num [defaultTrackerConfig] at hs
  cases hd : position.direction <;> simp only [hd] at hs <;> split_ifs at hs <;>
    simp only [Option.some.injEq] at hs <;>
    first
    | exact Option.noConfusion hs
    | (subst hs; exact ⟨by simp, by simp, rfl⟩)
/-- C10 witness: with both parses failed, evaluation at spread 20 equals the
30-days/0-days evaluation and emits the stop-loss signal `sig10`. -/
theorem c10_parse_failure_defaults_witness :
    (check_close_position defaultTrackerConfig pos10 20 none none =
      check_close_position defaultTrackerConfig pos10 20 (some 30) (some 0)) ∧
    sig10.reason ≠ .expiry_guard ∧ sig10.reason ≠ .max_holding ∧
    sig10.days_to_expiry = 30 :=
  ⟨(c10_parse_failure_defaults pos10 20).1,
   (c10_parse_failure_defaults pos10 20).2 sig10 (by
     norm_num [check_close_position, defaultTrackerConfig, pos10, sig10])⟩

/-- C5: if either side of an instrument pair carries no implied volatility
(the side is missing entirely, or its snapshot's `atm_iv` is `None`),
`analyze` returns no signal. -/
theorem c5_analyze_none_when_iv_absent (d : InstrumentData)
    (h : d.domestic.bind MarketSnapshot.atm_iv = none ∨
         d.foreign.bind MarketSnapshot.atm_iv = none) :
    analyze d = none := by
  unfold analyze
  rcases hdm : d.domestic with _ | dom <;> rcases hfr : d.foreign with _ | frn <;>
    simp only [hdm, hfr, Option.none_bind, Option.some_bind] at h ⊢
  rcases hdi : dom.atm_iv with _ | di <;>
    rcases hfi : frn.atm_iv with _ | fi <;>
      simp only [hdi, hfi] at h ⊢
  simp at h

/-- C6: with both IVs present, `analyze` returns no signal whenever the
spread is below the instrument's noise floor `min_iv_diff` or below its
entry gate `iv_open_threshold`. -/
theorem c6_analyze_threshold_gates (instrument : String)
    (config : InstrumentConfig) (dom frn : MarketSnapshot) (ts : ℕ)
    (di fi : ℚ) (hdi : dom.atm_iv = some di) (hfi : frn.atm_iv = some fi)
    (h : |fi - di| < config.min_iv_diff ∨ |fi - di| < config.iv_open_threshold) :
    analyze (mk_instrument_data instrument config (some dom) (some frn) ts) =
      none := by
  unfold mk_instrument_data analyze
  simp only [hdi, hfi]
  by_cases h1 : |fi - di| < config.min_iv_diff
  · rw [if_pos h1]
  · rcases h with h | h
    · exact absurd h h1
    · rw [if_neg h1, if_pos h]

/-- C7: every emitted signal (any configuration with a positive open
threshold) points long-domestic/short-foreign exactly when its `iv_diff` is
positive and the opposite way exactly when negative, and is strong exactly
when `|iv_diff|` is at least 1.5× the open threshold, medium exactly when
`|iv_diff|` is between the open threshold (inclusive) and 1.5× it
(exclusive). -/
theorem c7_direction_and_strength (d : InstrumentData)
    (s : MultiArbitrageSignal) (hthr : 0 < d.config.iv_open_threshold)
    (h : analyze d = some s) :
    (s.direction = .buy_domestic_sell_foreign ↔ 0 < s.iv_diff) ∧
    (s.direction = .sell_domestic_buy_foreign ↔ s.iv_diff < 0) ∧
    (s.strength = .strong ↔
      d.config.iv_open_threshold * (3 / 2) ≤ |s.iv_diff|) ∧
    (s.strength = .medium ↔
      d.config.iv_open_threshold ≤ |s.iv_diff| ∧
      |s.iv_diff| < d.config.iv_open_threshold * (3 / 2)) := by
  unfold analyze at h
  rcases hdm : d.domestic with _ | dom <;> simp only [hdm] at h
  · exact Option.noConfusion h
  rcases hfr : d.foreign with _ | frn <;> simp only [hfr] at h
  · exact Option.noConfusion h
  rcases hdi : dom.atm_iv with _ | di <;> simp only [hdi] at h
  · exact Option.noConfusion h
  rcases hfi : frn.atm_iv with _ | fi <;> simp only [hfi] at h
  · exact Option.noConfusion h
  rcases hivd : d.iv_diff with _ | ivd <;> simp only [hivd] at h
  · exact Option.noConfusion h
  by_cases h1 : |ivd| < d.config.min_iv_diff
  · rw [if_pos h1] at h; exact Option.noConfusion h
  rw [if_neg h1] at h
  by_cases h2 : |ivd| < d.config.iv_open_threshold
  · rw [if_pos h2] at h; exact Option.noConfusion h
  rw [if_neg h2] at h
  injection h with h
  subst h
  have hopen : d.config.iv_open_threshold ≤ |ivd| := not_lt.mp h2
  have hne : ivd ≠ 0 := by
    intro h0
    rw [h0, abs_zero] at hopen
    exact absurd (lt_of_lt_of_le hthr hopen) (lt_irrefl 0)
  refine ⟨?_, ?_, ?_, ?_⟩
  · by_cases hpos : 0 < ivd
    · simp [if_pos hpos, hpos]
    · simp [if_neg hpos, hpos]
  · by_cases hpos : 0 < ivd
    · simp only [if_pos hpos]
      simp [asymm hpos]
    · simp only [if_neg hpos]
      simp [lt_of_le_of_ne (not_lt.mp hpos) hne]
  · unfold get_strength
    by_cases hstr : d.config.iv_open_threshold * (3 / 2) ≤ |ivd|
    · simp [if_pos hstr, hstr]
    · rw [if_neg hstr, if_pos hopen]
      simp [hstr]
  · unfold get_strength
    by_cases hstr : d.config.iv_open_threshold * (3 / 2) ≤ |ivd|
    · rw [if_pos hstr]
      simp [not_lt.mpr hstr]
    · rw [if_neg hstr, if_pos hopen]
      simp [hopen, not_le.mp hstr]
/-- C5 witness: foreign IV absent (`None`) on a pair with domestic IV 20 —
no signal. -/
theorem c5_analyze_none_when_iv_absent_witness :
    analyze (mk_instrument_data "copper" copperSpec (some snapDom20)
      (some snapForNoIV) 0) = none :=
  c5_analyze_none_when_iv_absent _ (Or.inr rfl)

/-- C6 witness: spread 7.99 with open threshold 8.0 (noise floor 3.0) — no
signal, although the spread clears the noise floor. -/
theorem c6_analyze_threshold_gates_witness :
    analyze (mk_instrument_data "copper" copperSpec (some snapDom20)
      (some snapFor2799) 0) = none :=
  c6_analyze_threshold_gates "copper" copperSpec snapDom20 snapFor2799 0
    20 (2799 / 100) rfl rfl (Or.inr (by norm_num [copperSpec, abs_of_pos]))

/-- C7 witness: the 20 vs 32 copper pair emits exactly `s7`, and the
direction/strength boundaries hold for it. -/
theorem c7_direction_and_strength_witness :
    (s7.direction = .buy_domestic_sell_foreign ↔ 0 < s7.iv_diff) ∧
    (s7.direction = .sell_domestic_buy_foreign ↔ s7.iv_diff < 0) ∧
    (s7.strength = .strong ↔
      copperSpec.iv_open_threshold * (3 / 2) ≤ |s7.iv_diff|) ∧
    (s7.strength = .medium ↔
      copperSpec.iv_open_threshold ≤ |s7.iv_diff| ∧
      |s7.iv_diff| < copperSpec.iv_open_threshold * (3 / 2)) :=
  c7_direction_and_strength
    (mk_instrument_data "copper" copperSpec (some snapDom20) (some snapFor32) 0)
    s7 (by norm_num [mk_instrument_data, copperSpec])
    (by norm_num [analyze, mk_instrument_data, copperSpec, get_strength,
      estimate_profit, vega_factors, snapDom20, snapFor32, s7, List.lookup])

/-- C1 counterexample: the claim that every snapshot carries a provenance tag
fails — `MarketSnapshot` (the record handed to the analyzer and persisted)
has no provenance field, so a tier-1 option-chain IV of 25 and a tier-4
historical-volatility fallback of 25 produce *identical* snapshots: no
consumer of the snapshot can distinguish them, and the fallback is presented
as `atm_iv` exactly like an implied volatility. -/
theorem c1_no_provenance_counterexample :
    fetch_foreign_data copperSpec "copper"
        [{ hist_empty := false, price := 4, option_iv := some 25
         , hist_vol := none }] 0 =
      fetch_foreign_data copperSpec "copper"
        [{ hist_empty := false, price := 4, option_iv := none
         , hist_vol := some 25 }] 0 := by
  norm_num [fetch_foreign_data]

/-- C1 as amended: foreign acquisition carries no provenance tag — an
option-chain IV and a historical-volatility fallback of the same value yield
the same `MarketSnapshot`, with the fallback written to the same `atm_iv`
field; only total failure is distinguishable, as the absence of a
snapshot. -/
theorem c1_hv_fallback_indistinguishable (config : InstrumentConfig)
    (instrument : String) (price v : ℚ) (ts : ℕ) (hp : 0 < price) :
    fetch_foreign_data config instrument
        [{ hist_empty := false, price := price, option_iv := some v
         , hist_vol := none }] ts =
      fetch_foreign_data config instrument
        [{ hist_empty := false, price := price, option_iv := none
         , hist_vol := some v }] ts ∧
    fetch_foreign_data config instrument
        [{ hist_empty := false, price := price, option_iv := some v
         , hist_vol := none }] ts =
      some { instrument := instrument, instrument_name := config.name
           , market := "foreign", exchange := config.foreign_exchange
           , symbol := config.foreign_symbol, price := price
           , unit := config.foreign_unit, atm_iv := some v, timestamp := ts } ∧
    fetch_foreign_data config instrument
        [{ hist_empty := false, price := price, option_iv := none
         , hist_vol := none }] ts = none := by
  have hnp : ¬ price ≤ 0 := not_le.mpr hp
  refine ⟨?_, ?_, ?_⟩ <;> simp [fetch_foreign_data, hnp]

/-- C1 witness: the amended statement at a concrete input (price 4,
volatility value 25). -/
theorem c1_hv_fallback_indistinguishable_witness :
    fetch_foreign_data copperSpec "hg_test"
        [{ hist_empty := false, price := 4, option_iv := some 25
         , hist_vol := none }] 0 =
      fetch_foreign_data copperSpec "hg_test"
        [{ hist_empty := false, price := 4, option_iv := none
         , hist_vol := some 25 }] 0 ∧
    fetch_foreign_data copperSpec "hg_test"
        [{ hist_empty := false, price := 4, option_iv := some 25
         , hist_vol := none }] 0 =
      some { instrument := "hg_test", instrument_name := copperSpec.name
           , market := "foreign", exchange := copperSpec.foreign_exchange
           , symbol := copperSpec.foreign_symbol, price := 4
           , unit := copperSpec.foreign_unit, atm_iv := some 25
           , timestamp := 0 } ∧
    fetch_foreign_data copperSpec "hg_test"
        [{ hist_empty := false, price := 4, option_iv := none
         , hist_vol := none }] 0 = none :=
  c1_hv_fallback_indistinguishable copperSpec "hg_test" 4 25 0 (by norm_num)

/-- C2 counterexample: in the multi-instrument monitor, a first signal is
sent (gate open with no prior send), and a second signal for the same
instrument 600 s later whose `iv_diff` (13) differs from the first's (10) by
3 ≥ 2 percentage points is nevertheless suppressed — `_should_send_signal`
is a plain 30-minute cooldown that never consults direction or `iv_diff`,
so "differs by ≥ 2 → both are emitted" fails. -/
theorem c2_cooldown_counterexample :
    should_send_signal none 0 = true ∧
    ((600 : ℤ) - 0 < 1800) ∧
    (2 ≤ |(13 : ℚ) - 10|) ∧
    should_send_signal (some 0) 600 = false := by
  refine ⟨rfl, by norm_num, by norm_num [abs_of_pos], ?_⟩
  norm_num [should_send_signal]

/-- C2 as amended: the multi-instrument monitor suppresses *any* second
signal for the same instrument within 1800 s of the last sent one,
regardless of direction or `iv_diff`; the single-instrument analyzer's
deduplication suppresses a signal iff it arrives within 1800 s of the last
emitted signal and the most recent recorded signal has the same direction
with `iv_diff` differing by less than 2 percentage points. -/
theorem c2_dedup_characterization :
    (∀ now : ℤ, should_send_signal none now = true) ∧
    (∀ t now : ℤ, should_send_signal (some t) now = true ↔ 1800 < now - t) ∧
    (∀ (last_signal_time : Option ℤ) (history : List SignalRecord)
        (s : SignalRecord),
      is_duplicate_signal last_signal_time history s = true ↔
        ∃ t, last_signal_time = some t ∧ s.timestamp - t < 1800 ∧
          ∃ l, history.getLast? = some l ∧ l.direction = s.direction ∧
            |l.iv_diff - s.iv_diff| < 2) := by
  refine ⟨fun _ => rfl, fun t now => by simp [should_send_signal],
    fun last history s => ?_⟩
  cases last with
  | none => simp [is_duplicate_signal]
  | some t =>
    simp only [is_duplicate_signal]
    by_cases hlt : s.timestamp - t < 1800
    · rw [if_pos hlt]
      cases hl : history.getLast? with
      | none => simp [hl, hlt]
      | some l => simp [hl, hlt]
    · rw [if_neg hlt]
      simp [hlt]

end OptionsHedging
